import Mathlib

/-!
Shallow embedding of the wvc_capture_detection pipeline.

The embedding covers:
* `detection/detection_utils.py` — the per-detection classification loop of
  `detect_objects` (class rules, confidence thresholds, counting buckets,
  crop-key generation), with confidences modelled as exact rationals and the
  YOLO inference / S3 stores abstracted into explicit inputs and oracles;
* `tasks.py` — the Celery units of work `capture_single_camera`,
  `detect_single_photo`, `summarize_capture_results` and
  `schedule_photo_detection`, together with a faithful model of Celery's
  retry machinery (`Task.retry` raises a `Retry` exception — a subclass of
  `Exception` — while retries remain, and raises `MaxRetriesExceededError`
  or the passed exception once `max_retries` is reached; the worker
  re-executes the body with an incremented retry counter when a `Retry`
  escapes the body);
* `models/db_operations.py` — the database writes `update_photo_detection`
  and `save_detected_objects` as transitions on a per-photo database state;
* `capture/capture_utils.py` — the control flow of `capture`, with the
  camera stream, encoder, S3 upload, Redis and `Photo.create` outcomes
  abstracted into an environment record.
-/

namespace WVC

/-! ### Detection classification (`detection/detection_utils.py`) -/

/-- Confidences are Python floats in the source; the classification logic only
compares them, so exact rationals model the comparisons. -/
abbrev Conf := ℚ

/-- One entry of `CLASS_CONFIG`: `map_to`, `min_confidence`, `save_image`. -/
structure ClassRule where
  map_to : String
  min_confidence : Conf
  save_image : Bool
deriving DecidableEq, Repr

/-- `MIN_CONFIDENCE = 0.80` in `detection_utils.py`. -/
def MIN_CONFIDENCE : Conf := mkRat 8 10

/-- Default of `YOLO_MIN_CONFIDENCE` (`os.getenv` default `0.25`). -/
def YOLO_MIN_CONFIDENCE : Conf := mkRat 25 100

/-- Default of `YOLO_SYSTEM_CONFIDENCE` (`os.getenv` default `0.5`). -/
def YOLO_SYSTEM_CONFIDENCE : Conf := mkRat 1 2

/-- The shipped `CLASS_CONFIG` dictionary, as an association list in source
order. Every entry carries `min_confidence = MIN_CONFIDENCE` and
`save_image = True`. -/
def CLASS_CONFIG : List (String × ClassRule) :=
  [ ("car", ⟨"car", MIN_CONFIDENCE, true⟩),
    ("truck", ⟨"truck", MIN_CONFIDENCE, true⟩),
    ("bus", ⟨"truck", MIN_CONFIDENCE, true⟩),
    ("person", ⟨"person", MIN_CONFIDENCE, true⟩),
    ("dog", ⟨"deer", MIN_CONFIDENCE, true⟩),
    ("cat", ⟨"deer", MIN_CONFIDENCE, true⟩),
    ("horse", ⟨"deer", MIN_CONFIDENCE, true⟩),
    ("sheep", ⟨"deer", MIN_CONFIDENCE, true⟩),
    ("cow", ⟨"deer", MIN_CONFIDENCE, true⟩),
    ("elephant", ⟨"deer", MIN_CONFIDENCE, true⟩),
    ("bear", ⟨"deer", MIN_CONFIDENCE, true⟩),
    ("zebra", ⟨"deer", MIN_CONFIDENCE, true⟩),
    ("giraffe", ⟨"deer", MIN_CONFIDENCE, true⟩) ]

/-- The per-class counters dictionary initialised at the top of
`detect_objects`. -/
structure Counts where
  car_above : Nat
  car_below : Nat
  truck_above : Nat
  truck_below : Nat
  person_above : Nat
  person_below : Nat
  deer_above : Nat
  deer_below : Nat
deriving DecidableEq, Repr

/-- The all-zero counters (`counts = {... : 0}` in `detect_objects`, and the
`default=0` of the `SmallIntegerField` columns in `models.py`). -/
def zeroCounts : Counts := ⟨0, 0, 0, 0, 0, 0, 0, 0⟩

/-- Projection of the counter for a canonical class and bucket. -/
def countOf (c : Counts) (name : String) (above : Bool) : Nat :=
  if name = "car" then (if above then c.car_above else c.car_below)
  else if name = "truck" then (if above then c.truck_above else c.truck_below)
  else if name = "person" then (if above then c.person_above else c.person_below)
  else if name = "deer" then (if above then c.deer_above else c.deer_below)
  else 0

/-- The `counts[f'...'] += 1` statement of the loop. The final `else` branch
is unreachable under the shipped `CLASS_CONFIG`, whose `map_to` values are
exactly the four canonical names keyed in the `counts` dictionary. -/
def bumpCounts (c : Counts) (name : String) (above : Bool) : Counts :=
  if name = "car" then
    (if above then { c with car_above := c.car_above + 1 }
     else { c with car_below := c.car_below + 1 })
  else if name = "truck" then
    (if above then { c with truck_above := c.truck_above + 1 }
     else { c with truck_below := c.truck_below + 1 })
  else if name = "person" then
    (if above then { c with person_above := c.person_above + 1 }
     else { c with person_below := c.person_below + 1 })
  else if name = "deer" then
    (if above then { c with deer_above := c.deer_above + 1 }
     else { c with deer_below := c.deer_below + 1 })
  else c

/-- A raw YOLO detection as the loop reads it: the original class name
(`result.names[int(box.cls)]`) and the confidence (`float(box.conf)`). The
bounding-box coordinates do not influence classification, keys or counters
and are abstracted away (the crop store is an oracle indexed by position). -/
structure RawDet where
  cls : String
  conf : Conf
deriving DecidableEq, Repr

/-- The dictionary appended to `detected_objects` for a kept detection. -/
structure DetObjOut where
  name : String
  original_name : String
  conf : Conf
  s3_key : Option String
  is_above_system_confidence : Bool
deriving DecidableEq, Repr

/-- The deterministic crop key `objects/{mapped_class_name}/{photo_id}_{i}.jpg`. -/
def cropKey (mapped : String) (photo_id : Nat) (i : Nat) : String :=
  "objects/" ++ mapped ++ "/" ++ toString photo_id ++ "_" ++ toString i ++ ".jpg"

/-- One iteration of the `for i, box in enumerate(result.boxes, 1)` loop of
`detect_objects`. `uploadOk i` abstracts the crop-store attempt for the
detection at raw position `i`: `false` covers both `upload_to_s3` returning
`success = False` and any exception inside the crop `try` block — in both
cases the source sets `object_s3_key = None`. -/
def processDet (sysConf : Conf) (photo_id : Nat) (uploadOk : Nat → Bool)
    (i : Nat) (d : RawDet) (counts : Counts) : Counts × Option DetObjOut :=
  match CLASS_CONFIG.lookup d.cls with
  | none => (counts, none)
  | some rule =>
    if d.conf < rule.min_confidence then (counts, none)
    else
      let mapped := rule.map_to
      let is_above : Bool := decide (d.conf ≥ sysConf)
      let counts2 := bumpCounts counts mapped is_above
      let key : Option String :=
        if rule.save_image then
          (if uploadOk i then some (cropKey mapped photo_id i) else none)
        else none
      (counts2, some ⟨mapped, d.cls, d.conf, key, is_above⟩)

/-- The whole loop, threading the counters and collecting the emitted
objects; `i` is the 1-based position in the raw detection list. -/
def detectLoop (sysConf : Conf) (photo_id : Nat) (uploadOk : Nat → Bool) :
    Nat → Counts → List RawDet → Counts × List DetObjOut
  | _, counts, [] => (counts, [])
  | i, counts, d :: rest =>
    let step := processDet sysConf photo_id uploadOk i d counts
    let restRes := detectLoop sysConf photo_id uploadOk (i + 1) step.1 rest
    (restRes.1, step.2.toList ++ restRes.2)

/-- The fields of the dictionary returned by `detect_objects` that the
claims are about. -/
structure DetectResult where
  photo_id : Nat
  counts : Counts
  detected_objects : List DetObjOut
  has_detected_objects : Bool
  total_objects_detected : Nat
  total_raw_detections : Nat
deriving DecidableEq, Repr

/-- The classification part of `detect_objects`, starting from the raw
detection list returned by the model. Download, model loading and inference
are abstracted into the input `dets`; on those failure paths the source
returns `None` before reaching this loop. -/
def detect_objects (sysConf : Conf) (photo_id : Nat) (uploadOk : Nat → Bool)
    (dets : List RawDet) : DetectResult :=
  let r := detectLoop sysConf photo_id uploadOk 1 zeroCounts dets
  { photo_id := photo_id
    counts := r.1
    detected_objects := r.2
    has_detected_objects := decide (r.2.length > 0)
    total_objects_detected := r.2.length
    total_raw_detections := dets.length }

/-- Reference form of the emitted object of one raw detection (independent of
the threaded counters; proved to agree with `processDet`). -/
def emitOne (sysConf : Conf) (photo_id : Nat) (uploadOk : Nat → Bool)
    (i : Nat) (d : RawDet) : Option DetObjOut :=
  (processDet sysConf photo_id uploadOk i d zeroCounts).2

/-- Reference form of the emitted-object list with explicit 1-based raw
positions. -/
def emitList (sysConf : Conf) (photo_id : Nat) (uploadOk : Nat → Bool) :
    Nat → List RawDet → List DetObjOut
  | _, [] => []
  | i, d :: rest =>
    (emitOne sysConf photo_id uploadOk i d).toList
      ++ emitList sysConf photo_id uploadOk (i + 1) rest

/-! ### Celery task model (`tasks.py`) -/

/-- Python exceptions as the task bodies observe them. `retryExc` is
`celery.exceptions.Retry` and `maxRetriesExceeded` is
`celery.exceptions.MaxRetriesExceededError`; both are subclasses of
`Exception` in Celery, so a broad `except Exception` catches them.
`appError` stands for any other exception. -/
inductive PyExc where
  | retryExc
  | maxRetriesExceeded
  | appError (msg : String)
deriving DecidableEq, Repr

/-- Celery `Task.retry`: while `retries < max_retries` it raises `Retry`;
once retries are exhausted it raises the passed exception if one was given
(`self.retry(exc=e)`), else `MaxRetriesExceededError`. -/
def celery_retry (max_retries retries : Nat) (exc : Option PyExc) : PyExc :=
  if retries < max_retries then .retryExc
  else match exc with
    | some e => e
    | none => .maxRetriesExceeded

/-- Outcome of one execution of a task body: a returned value, or an
exception that escaped the body. -/
inductive TaskResult (α : Type) where
  | ret (v : α)
  | raised (e : PyExc)
deriving DecidableEq, Repr

/-- The Celery worker's retry loop: execute the body at the current retry
count; if a `Retry` escapes, re-execute with the count incremented. `fuel`
bounds the number of re-executions (any `fuel ≥ max_retries` is enough,
because `celery_retry` stops producing `Retry` then). Returns the final
outcome and the number of retries that were performed. -/
def run_celery {α : Type} (body : Nat → TaskResult α) :
    Nat → Nat → TaskResult α × Nat
  | 0, retries => (body retries, retries)
  | fuel + 1, retries =>
    match body retries with
    | .raised .retryExc => run_celery body fuel (retries + 1)
    | r => (r, retries)

/-! ### Capture (`capture/capture_utils.py` and the capture tasks) -/

/-- The camera fields `capture` reads and mutates. -/
structure CamRec where
  id : Nat
  state_slug : String
  city_slug : String
  slug : String
  last_connection_status : Bool
deriving DecidableEq, Repr

/-- Abstract environment for one `capture(camera)` attempt.
`frame_ok` is `get_frame_from_m3u8` returning `(True, frame)` (that helper
catches its own exceptions and returns `(False, None)` on an open or read
failure); `encode_ok` is the `cv2.imencode` flag; `upload_ok` is the
`upload_to_s3` success flag (it catches internally and returns
`(False, "")`); `redis_ok = false` models `redis.RedisError` raised by the
`r.set` / `r.expire` bookkeeping; `photo_create_ok = false` models an
exception from `Photo.create`; `filename` is the timestamp-derived file
name. -/
structure CaptureEnv where
  frame_ok : Bool
  encode_ok : Bool
  upload_ok : Bool
  redis_ok : Bool
  photo_create_ok : Bool
  filename : String
deriving DecidableEq, Repr

/-- The fields of the dictionary returned by `capture` that the claims are
about (`file` is the S3 key, empty on the failure dictionary). -/
structure CaptureOutcome where
  camera_id : Nat
  file : String
  success : Bool
deriving DecidableEq, Repr

/-- Observable result of one `capture(camera)` call: the returned value
(`none` models the `except` handlers returning Python `None`), the new
`last_connection_status` if the camera row was saved (`none` = untouched),
and whether a `Photo` row was created. -/
structure CaptureEffect where
  retval : Option CaptureOutcome
  last_connection_status : Option Bool
  photo_created : Bool
deriving DecidableEq, Repr

/-- The S3 key `photos/{state.slug}/{city.slug}/{camera.slug}/{filename}`
built by `capture`. -/
def s3KeyFor (cam : CamRec) (filename : String) : String :=
  "photos/" ++ cam.state_slug ++ "/" ++ cam.city_slug ++ "/" ++ cam.slug
    ++ "/" ++ filename

/-- Control flow of `capture(camera)`. On the full success path the
`Photo.create` call sits in its own `try/except` whose handler only logs, so
a row-creation failure still reaches `last_connection_status = True` and the
success return. A `redis.RedisError` from the bookkeeping propagates to the
outer handler, which returns `None` without touching the camera row. Any
failure of frame read, encode or upload falls through to the common tail
that sets `last_connection_status = False` and returns the failure
dictionary. -/
def capture (cam : CamRec) (env : CaptureEnv) : CaptureEffect :=
  let s3_key := s3KeyFor cam env.filename
  if env.frame_ok ∧ env.encode_ok ∧ env.upload_ok then
    if env.redis_ok then
      ⟨some ⟨cam.id, s3_key, true⟩, some true, env.photo_create_ok⟩
    else
      ⟨none, none, false⟩
  else
    ⟨some ⟨cam.id, "", false⟩, some false, false⟩

/-- Return dictionary of the `capture_single_camera` task (`camera_id`,
`status`, and the `error` key of the `except Exception` handler, which holds
`str(e)` of the caught exception). -/
structure CapDict where
  camera_id : Nat
  status : String
  error : Option PyExc
deriving DecidableEq, Repr

/-- Truthiness of `result and result.get('success')` in the task. -/
def capSuccess (capres : Option CaptureOutcome) : Bool :=
  match capres with
  | some o => o.success
  | none => false

/-- One execution of the `capture_single_camera` task body at retry count
`retries` (the decorator sets `max_retries=2`). The `try` block returns the
`not_found` or `success` dictionaries, or calls `self.retry(countdown=5)`,
which raises. The handlers of the same `try` statement are then tried in
order: `except self.MaxRetriesExceededError` returns the
`failed_after_retries` dictionary, and the broad `except Exception` returns
the `error` dictionary — and `celery.exceptions.Retry` is an `Exception`,
so a `Retry` raised inside the `try` block lands in that second handler. -/
def capture_single_camera (cid : Nat) (camera : Option CamRec)
    (capres : Option CaptureOutcome) (retries : Nat) : TaskResult CapDict :=
  let tryRes : Except PyExc CapDict :=
    match camera with
    | none => .ok ⟨cid, "not_found", none⟩
    | some _ =>
      if capSuccess capres then .ok ⟨cid, "success", none⟩
      else .error (celery_retry 2 retries none)
  match tryRes with
  | .ok d => .ret d
  | .error e =>
    if e = .maxRetriesExceeded then .ret ⟨cid, "failed_after_retries", none⟩
    else .ret ⟨cid, "error", some e⟩

/-- The summary dictionary returned by `summarize_capture_results`. -/
structure CaptureSummary where
  total : Nat
  success : Nat
  failed : Nat
  success_rate : ℚ
  not_found : Nat
  max_retries : Nat
  errors : Nat
deriving DecidableEq, Repr

/-- The `summarize_capture_results` task over the list of result
dictionaries collected by the chord. -/
def summarize_capture_results (results : List CapDict) : CaptureSummary :=
  let total := results.length
  let success := (results.filter (fun r => r.status = "success")).length
  let failed := total - success
  let success_rate : ℚ :=
    if total > 0 then (success : ℚ) / (total : ℚ) * 100 else 0
  let not_found := (results.filter (fun r => r.status = "not_found")).length
  let max_retries :=
    (results.filter (fun r => r.status = "failed_after_retries")).length
  let errors := (results.filter (fun r => r.status = "error")).length
  ⟨total, success, failed, success_rate, not_found, max_retries, errors⟩

/-! ### Detection task (`detect_single_photo` in `tasks.py`) -/

/-- Results of the three calls the `detect_single_photo` body makes, each of
which may also raise (`.error e`): `detect_objects` returns `None` on its
internal failure paths, `update_photo_detection` and `save_detected_objects`
return booleans. -/
structure DetectFlow where
  detect : Except PyExc (Option DetectResult)
  update : Except PyExc Bool
  save : Except PyExc Bool

/-- Return dictionary of the `detect_single_photo` task (status fields). -/
structure DetectDict where
  photo_id : Nat
  status : String
deriving DecidableEq, Repr

/-- Database effects of one execution of `detect_single_photo`:
`photo_updated` is true when `update_photo_detection` committed (setting
`detected_at`), `objects_saved` when `save_detected_objects` committed. -/
structure DetectEffects where
  photo_updated : Bool
  objects_saved : Bool
deriving DecidableEq, Repr

/-- One execution of the `detect_single_photo` task body at retry count
`retries` (the decorator sets `max_retries=2`). The structured failure paths
(`detect_objects` returning `None`, `update_photo_detection` returning
`False`) return `error` dictionaries; a failing `save_detected_objects` is
only logged and the task still returns `success`. The body's single
`except Exception` handler executes `raise self.retry(exc=e, countdown=60)`;
that raise happens inside the handler, not the `try` block, so the raised
exception escapes the body. -/
def detect_single_photo (pid : Nat) (f : DetectFlow) (retries : Nat) :
    TaskResult DetectDict × DetectEffects :=
  match f.detect with
  | .error e => (.raised (celery_retry 2 retries (some e)), ⟨false, false⟩)
  | .ok none => (.ret ⟨pid, "error"⟩, ⟨false, false⟩)
  | .ok (some res) =>
    match f.update with
    | .error e => (.raised (celery_retry 2 retries (some e)), ⟨false, false⟩)
    | .ok false => (.ret ⟨pid, "error"⟩, ⟨false, false⟩)
    | .ok true =>
      if res.detected_objects.isEmpty then
        (.ret ⟨pid, "success"⟩, ⟨true, false⟩)
      else
        match f.save with
        | .error e => (.raised (celery_retry 2 retries (some e)), ⟨true, false⟩)
        | .ok ok => (.ret ⟨pid, "success"⟩, ⟨true, ok⟩)

/-! ### Per-photo database state (`models/db_operations.py`) -/

/-- A `DetectedObject` row (the fields relevant to the invariant claims). -/
structure DetObjRow where
  name : String
  conf : Conf
deriving DecidableEq, Repr

/-- The per-photo slice of the database: the `Photo` row columns touched by
detection, and the photo's `DetectedObject` rows. -/
structure PhotoDB where
  detected_at : Option Nat
  counts : Counts
  has_detected_objects : Bool
  objects : List DetObjRow
deriving DecidableEq, Repr

/-- The `Photo.create` call in `capture`: `detected_at=None`,
`has_detected_objects=False`, and the eight counters at their `default=0`
column values; no `DetectedObject` rows reference the new photo. -/
def photoCreate : PhotoDB := ⟨none, zeroCounts, false, []⟩

/-- The single `UPDATE` of `update_photo_detection`: it writes the eight
counters, `has_detected_objects`, and `detected_at = datetime.now()` in one
statement. -/
def update_photo_detection (s : PhotoDB) (c : Counts) (has : Bool)
    (t : Nat) : PhotoDB :=
  { s with detected_at := some t, counts := c, has_detected_objects := has }

/-- The committed effect of `save_detected_objects`: the batch insert runs
inside one `db.atomic()` block, so either all rows are appended or (on a
failure) none are — the caller observes `False` and the state is unchanged. -/
def save_detected_objects (s : PhotoDB) (objs : List DetObjRow) : PhotoDB :=
  { s with objects := s.objects ++ objs }

/-- The database transition performed by one `detect_single_photo` run on
its photo, driven by the results of the three calls: nothing on a `None`
detection result or a failed update; on a successful update the `UPDATE`
commits on its own, and the object insert is attempted afterwards (only when
`result['detected_objects']` is non-empty) in a separate transaction whose
failure leaves the update in place. -/
def detect_db_step (s : PhotoDB) (res : Option DetectResult) (t : Nat)
    (updOk saveOk : Bool) : PhotoDB :=
  match res with
  | none => s
  | some r =>
    if updOk then
      let s1 := update_photo_detection s r.counts r.has_detected_objects t
      if r.detected_objects.isEmpty then s1
      else if saveOk then
        save_detected_objects s1
          (r.detected_objects.map (fun o => ⟨o.name, o.conf⟩))
      else s1
    else s

/-- Spec-side model of the claimed persistence semantics, following the
spec's words: the `CapturedImage` row mutation and the `DetectedObject`
batch insert happen under one single update+insert transaction, so either
both commit (`txOk = true`) or neither does. -/
def detect_db_step_one_tx (s : PhotoDB) (res : Option DetectResult) (t : Nat)
    (txOk : Bool) : PhotoDB :=
  match res with
  | none => s
  | some r =>
    if txOk then
      save_detected_objects
        (update_photo_detection s r.counts r.has_detected_objects t)
        (r.detected_objects.map (fun o => ⟨o.name, o.conf⟩))
    else s

/-- The claimed invariant, as the spec states it: `detected_at` is null iff
all eight counters are zero and no object rows exist. -/
def DetectInvariantIff (s : PhotoDB) : Prop :=
  s.detected_at = none ↔ (s.counts = zeroCounts ∧ s.objects = [])

/-- The direction of the invariant the code actually maintains: a photo not
yet stamped `detected_at` has all-zero counters and no object rows. -/
def DetectInvariantImp (s : PhotoDB) : Prop :=
  s.detected_at = none → (s.counts = zeroCounts ∧ s.objects = [])

/-! ### Detection scheduler (`schedule_photo_detection` and
`get_undetected_photos`) -/

/-- The `Photo` columns read by the scheduler query. -/
structure PhotoRec where
  id : Nat
  file : Option String
  detected_at : Option Nat
  created_at : Nat
deriving DecidableEq, Repr

/-- Ordering of `ORDER BY created_at ASC`. -/
def createdLE (a b : PhotoRec) : Prop := a.created_at ≤ b.created_at

instance : DecidableRel createdLE := fun a b => Nat.decLe a.created_at b.created_at

instance : IsTotal PhotoRec createdLE := ⟨fun a b => Nat.le_total a.created_at b.created_at⟩

instance : IsTrans PhotoRec createdLE := ⟨fun _ _ _ h h2 => Nat.le_trans h h2⟩

/-- The `WHERE detected_at IS NULL AND file IS NOT NULL` predicate. -/
def undetectedFilter (p : PhotoRec) : Bool := p.detected_at.isNone && p.file.isSome

/-- The `get_undetected_photos` query: filter, order by `created_at`
ascending, apply `LIMIT limit`, and project each row to the
`(id, s3_key)` dictionary (`s3_key` is the `file` column, non-null on every
selected row). -/
def get_undetected_photos (photos : List PhotoRec) (limit : Nat) :
    List (Nat × String) :=
  (((photos.filter undetectedFilter).insertionSort createdLE).take limit).map
    (fun p => (p.id, p.file.getD ""))

/-- Result of `schedule_photo_detection`: the count it reports and the
fan-out, i.e. the `(photo_id, s3_key)` arguments of the
`detect_single_photo.apply_async` calls in order. -/
structure ScheduleOutcome where
  photos_scheduled : Nat
  scheduled : List (Nat × String)
deriving DecidableEq, Repr

/-- The `schedule_photo_detection` task: query up to 100 undetected photos,
return early with zero scheduled when there are none, otherwise enqueue one
detection task per photo (the enqueue itself does not fail in this model, so
`scheduled_count` equals the number of photos found). -/
def schedule_photo_detection (photos : List PhotoRec) : ScheduleOutcome :=
  let ps := get_undetected_photos photos 100
  if ps.isEmpty then ⟨0, []⟩ else ⟨ps.length, ps⟩

/-- Detection result of `detect_objects` on an empty raw-detection list
(used as a concrete zero-detection run). -/
def resNoDets : DetectResult :=
  detect_objects YOLO_SYSTEM_CONFIDENCE 1 (fun _ => false) []

/-- Detection result of `detect_objects` on a single confident car (used as
a concrete one-detection run; the crop store fails, so the emitted object
has no crop key). -/
def resOneCar : DetectResult :=
  detect_objects YOLO_SYSTEM_CONFIDENCE 1 (fun _ => false) [⟨"car", mkRat 9 10⟩]

/-! ### Helper lemmas -/

theorem lookup_mem_pairs :
    ∀ {l : List (String × ClassRule)} {n : String} {r : ClassRule},
      l.lookup n = some r → (n, r) ∈ l := by
  intro l
  induction l with
  | nil => intro n r h; simp [List.lookup] at h
  | cons p rest ih =>
    intro n r h
    obtain ⟨k, v⟩ := p
    rw [List.lookup] at h
    by_cases hk : (n == k) = true
    · rw [hk] at h
      simp at h
      simp [eq_of_beq hk, h]
    · rw [Bool.not_eq_true] at hk
      rw [hk] at h
      exact List.mem_cons_of_mem _ (ih h)

theorem class_config_entry_shape :
    ∀ p ∈ CLASS_CONFIG, p.2.min_confidence = MIN_CONFIDENCE ∧
      p.2.save_image = true ∧
      (p.2.map_to = "car" ∨ p.2.map_to = "truck" ∨ p.2.map_to = "person" ∨
        p.2.map_to = "deer") := by
  decide

theorem class_config_lookup_shape {n : String} {r : ClassRule}
    (h : CLASS_CONFIG.lookup n = some r) :
    r.min_confidence = MIN_CONFIDENCE ∧ r.save_image = true ∧
      (r.map_to = "car" ∨ r.map_to = "truck" ∨ r.map_to = "person" ∨
        r.map_to = "deer") :=
  class_config_entry_shape (n, r) (lookup_mem_pairs h)

theorem countOf_bumpCounts (c : Counts) (m : String) (b : Bool)
    (hm : m = "car" ∨ m = "truck" ∨ m = "person" ∨ m = "deer") :
    countOf (bumpCounts c m b) m b = countOf c m b + 1 := by
  rcases hm with hm | hm | hm | hm <;> subst hm <;> cases b <;>
    simp [countOf, bumpCounts]

theorem bumpCounts_true_below (c : Counts) (m : String) :
    (bumpCounts c m true).car_below = c.car_below ∧
    (bumpCounts c m true).truck_below = c.truck_below ∧
    (bumpCounts c m true).person_below = c.person_below ∧
    (bumpCounts c m true).deer_below = c.deer_below := by
  unfold bumpCounts
  split_ifs <;> simp_all

theorem processDet_snd_counts_free (sysConf : Conf) (pid : Nat)
    (up : Nat → Bool) (i : Nat) (d : RawDet) (c : Counts) :
    (processDet sysConf pid up i d c).2 = emitOne sysConf pid up i d := by
  unfold emitOne processDet
  cases CLASS_CONFIG.lookup d.cls with
  | none => rfl
  | some rule =>
    by_cases hlt : d.conf < rule.min_confidence <;> simp [hlt]

theorem detectLoop_snd (sysConf : Conf) (pid : Nat) (up : Nat → Bool) :
    ∀ (dets : List RawDet) (i : Nat) (c : Counts),
      (detectLoop sysConf pid up i c dets).2 = emitList sysConf pid up i dets := by
  intro dets
  induction dets with
  | nil => intro i c; rfl
  | cons d rest ih =>
    intro i c
    simp only [detectLoop, emitList, ih, processDet_snd_counts_free]

theorem processDet_below_preserved (sysConf : Conf) (pid : Nat)
    (up : Nat → Bool) (hsys : sysConf ≤ MIN_CONFIDENCE) (i : Nat) (d : RawDet)
    (c : Counts) (hc : c.car_below = 0 ∧ c.truck_below = 0 ∧
      c.person_below = 0 ∧ c.deer_below = 0) :
    ((processDet sysConf pid up i d c).1.car_below = 0 ∧
      (processDet sysConf pid up i d c).1.truck_below = 0 ∧
      (processDet sysConf pid up i d c).1.person_below = 0 ∧
      (processDet sysConf pid up i d c).1.deer_below = 0) ∧
    (∀ o, (processDet sysConf pid up i d c).2 = some o →
      o.is_above_system_confidence = true) := by
  unfold processDet
  cases hl : CLASS_CONFIG.lookup d.cls with
  | none => exact ⟨hc, by simp⟩
  | some rule =>
    obtain ⟨hmin, hsave, hmap⟩ := class_config_lookup_shape hl
    by_cases hlt : d.conf < rule.min_confidence
    · simp only [if_pos hlt]
      exact ⟨hc, by simp⟩
    · have hge : sysConf ≤ d.conf := le_trans (hmin ▸ hsys) (not_lt.mp hlt)
      have hdec : decide (d.conf ≥ sysConf) = true := decide_eq_true hge
      simp only [if_neg hlt, hdec]
      constructor
      · have hb := bumpCounts_true_below c rule.map_to
        exact ⟨hb.1.trans hc.1, hb.2.1.trans hc.2.1, hb.2.2.1.trans hc.2.2.1,
          hb.2.2.2.trans hc.2.2.2⟩
      · intro o ho
        simp at ho
        rw [← ho]

theorem detectLoop_below_preserved (sysConf : Conf) (pid : Nat)
    (up : Nat → Bool) (hsys : sysConf ≤ MIN_CONFIDENCE) :
    ∀ (dets : List RawDet) (i : Nat) (c : Counts),
      (c.car_below = 0 ∧ c.truck_below = 0 ∧ c.person_below = 0 ∧
        c.deer_below = 0) →
      ((detectLoop sysConf pid up i c dets).1.car_below = 0 ∧
        (detectLoop sysConf pid up i c dets).1.truck_below = 0 ∧
        (detectLoop sysConf pid up i c dets).1.person_below = 0 ∧
        (detectLoop sysConf pid up i c dets).1.deer_below = 0) ∧
      ∀ o ∈ (detectLoop sysConf pid up i c dets).2,
        o.is_above_system_confidence = true := by
  intro dets
  induction dets with
  | nil => intro i c hc; exact ⟨hc, by simp [detectLoop]⟩
  | cons d rest ih =>
    intro i c hc
    have hstep := processDet_below_preserved sysConf pid up hsys i d c hc
    have hrest := ih (i + 1) (processDet sysConf pid up i d c).1 hstep.1
    refine ⟨hrest.1, ?_⟩
    intro o ho
    simp only [detectLoop, List.mem_append] at ho
    rcases ho with ho | ho
    · rcases hmem : (processDet sysConf pid up i d c).2 with _ | o2
      · rw [hmem] at ho; simp at ho
      · rw [hmem] at ho
        simp at ho
        rw [ho]
        exact hstep.2 o2 hmem
    · exact hrest.2 o ho

theorem count_status_partition (results : List CapDict)
    (h : ∀ r ∈ results, r.status = "success" ∨ r.status = "not_found" ∨
      r.status = "failed_after_retries" ∨ r.status = "error") :
    (results.filter (fun r => r.status = "success")).length
      + (results.filter (fun r => r.status = "not_found")).length
      + (results.filter (fun r => r.status = "failed_after_retries")).length
      + (results.filter (fun r => r.status = "error")).length
      = results.length := by
  induction results with
  | nil => rfl
  | cons r rs ih =>
    have hr := h r (List.mem_cons_self r rs)
    have ihh := ih (fun x hx => h x (List.mem_cons_of_mem r hx))
    simp only [List.filter_cons, List.length_cons]
    rcases hr with h1 | h1 | h1 | h1 <;> rw [h1] <;> simp <;> omega

theorem capture_single_camera_statuses (cid : Nat) (camera : Option CamRec)
    (capres : Option CaptureOutcome) (retries : Nat) (d : CapDict)
    (h : capture_single_camera cid camera capres retries = .ret d) :
    d.status = "success" ∨ d.status = "not_found" ∨
      d.status = "failed_after_retries" ∨ d.status = "error" := by
  unfold capture_single_camera celery_retry at h
  cases camera with
  | none => simp at h; simp [← h]
  | some cam =>
    by_cases hs : capSuccess capres = true
    · simp [hs] at h; simp [← h]
    · simp only [Bool.not_eq_true] at hs
      by_cases hr : retries < 2
      · simp [hs, hr] at h; simp [← h]
      · simp [hs, hr] at h; simp [← h]

/-! ### Claim theorems -/

/-- C1. The claim says a camera whose capture fails is retried up to 2 times
with a 5-second delay and then yields `failed_after_retries`. The code never
does this: `celery.exceptions.Retry`, raised by `self.retry(countdown=5)`
inside the `try` block, is a subclass of `Exception` and is caught by the
task's own broad `except Exception` handler, which returns an `error`
dictionary immediately. So on a failing capture the task body never lets a
`Retry` escape (first conjunct: every execution returns a value), the worker
runs the body exactly once and gets the `error` dictionary with zero retries
performed (second and third conjuncts), and the `failed_after_retries`
handler is reachable only at retry counts the worker never produces (last
conjunct). -/
theorem capture_retry_bug (cid : Nat) (cam : CamRec)
    (capres : Option CaptureOutcome) (h : capSuccess capres = false) :
    (∀ retries, ∃ d, capture_single_camera cid (some cam) capres retries = .ret d) ∧
    (∀ fuel, run_celery (capture_single_camera cid (some cam) capres) fuel 0
      = (.ret ⟨cid, "error", some .retryExc⟩, 0)) ∧
    capture_single_camera cid (some cam) capres 0
      = .ret ⟨cid, "error", some .retryExc⟩ ∧
    (∀ retries d, capture_single_camera cid (some cam) capres retries = .ret d →
      d.status = "failed_after_retries" → 2 ≤ retries) := by
  have hbody : ∀ retries, retries < 2 →
      capture_single_camera cid (some cam) capres retries
        = .ret ⟨cid, "error", some .retryExc⟩ := by
    intro retries hr
    simp [capture_single_camera, celery_retry, h, hr]
  refine ⟨?_, ?_, hbody 0 (by omega), ?_⟩
  · intro retries
    unfold capture_single_camera celery_retry
    by_cases hr : retries < 2 <;> simp [h, hr]
  · intro fuel
    cases fuel with
    | zero => simp [run_celery, hbody 0 (by omega)]
    | succ f => simp [run_celery, hbody 0 (by omega)]
  · intro retries d hd hstat
    by_cases hr : retries < 2
    · rw [hbody retries hr] at hd
      simp at hd
      rw [← hd] at hstat
      simp at hstat
    · omega

theorem capture_retry_bug_witness :
    capSuccess (some ⟨1, "", false⟩) = false ∧
    run_celery (capture_single_camera 1 (some ⟨1, "wv", "huntington", "cam1", false⟩)
        (some ⟨1, "", false⟩)) 3 0
      = (.ret ⟨1, "error", some .retryExc⟩, 0) :=
  ⟨by decide,
    (capture_retry_bug 1 ⟨1, "wv", "huntington", "cam1", false⟩
      (some ⟨1, "", false⟩) (by decide)).2.1 3⟩

/-- C3. `summarize_capture_results` over any list of outcomes produced by
`capture_single_camera` (whose statuses are exactly `success`, `not_found`,
`failed_after_retries`, `error` — last conjunct but one) reports
`total = N`, `success` = the number of `success` outcomes,
`failed = total - success`, `success_rate = success/total*100` (`0` when the
list is empty), and a breakdown with `not_found`, `max_retries` and `errors`
counts that together with `success` sum to `total`; on the concrete list
`[success, error, failed_after_retries]` it returns `total=3`, `success=1`,
`failed=2`, rate `100/3`, breakdown `errors=1`, `max_retries=1`,
`not_found=0`. -/
theorem summarize_capture_results_correct (results : List CapDict)
    (h : ∀ r ∈ results, r.status = "success" ∨ r.status = "not_found" ∨
      r.status = "failed_after_retries" ∨ r.status = "error") :
    (summarize_capture_results results).total = results.length ∧
    (summarize_capture_results results).success
      = (results.filter (fun r => r.status = "success")).length ∧
    (summarize_capture_results results).failed
      = (summarize_capture_results results).total
        - (summarize_capture_results results).success ∧
    (summarize_capture_results results).success
      + (summarize_capture_results results).not_found
      + (summarize_capture_results results).max_retries
      + (summarize_capture_results results).errors
      = (summarize_capture_results results).total ∧
    (results.length = 0 → (summarize_capture_results results).success_rate = 0) ∧
    (0 < results.length → (summarize_capture_results results).success_rate
      = ((summarize_capture_results results).success : ℚ)
        / (results.length : ℚ) * 100) ∧
    (∀ cid camera capres retries d,
      capture_single_camera cid camera capres retries = .ret d →
        d.status = "success" ∨ d.status = "not_found" ∨
        d.status = "failed_after_retries" ∨ d.status = "error") ∧
    summarize_capture_results
        [⟨1, "success", none⟩, ⟨2, "error", some (.appError "boom")⟩,
         ⟨3, "failed_after_retries", none⟩]
      = ⟨3, 1, 2, 100 / 3, 0, 1, 1⟩ := by
  refine ⟨rfl, rfl, rfl, count_status_partition results h, ?_, ?_,
    fun cid camera capres retries d hd =>
      capture_single_camera_statuses cid camera capres retries d hd, ?_⟩
  · intro h0
    simp [summarize_capture_results, h0]
  · intro h0
    simp [summarize_capture_results, h0, Nat.pos_iff_ne_zero.mp h0]
  · simp [summarize_capture_results]
    norm_num

theorem summarize_capture_results_correct_witness :
    (∀ r ∈ ([⟨1, "success", none⟩, ⟨2, "error", some (.appError "boom")⟩,
        ⟨3, "failed_after_retries", none⟩] : List CapDict),
      r.status = "success" ∨ r.status = "not_found" ∨
        r.status = "failed_after_retries" ∨ r.status = "error") ∧
    summarize_capture_results
        [⟨1, "success", none⟩, ⟨2, "error", some (.appError "boom")⟩,
         ⟨3, "failed_after_retries", none⟩]
      = ⟨3, 1, 2, 100 / 3, 0, 1, 1⟩ :=
  ⟨by decide,
    (summarize_capture_results_correct
      [⟨1, "success", none⟩, ⟨2, "error", some (.appError "boom")⟩,
       ⟨3, "failed_after_retries", none⟩] (by decide)).2.2.2.2.2.2.2⟩

/-- C8 counterexample. At a concrete input where frame read, encode, upload
and the Redis bookkeeping all succeed but `Photo.create` fails, `capture`
still returns a success outcome — refuting "returns a success outcome only
when ... the CapturedImage row creation have all succeeded". And at a
concrete input where the Redis bookkeeping raises, `capture` returns `None`
without touching `last_connection_status` — refuting "last_connection_status
is mutated on every attempt". -/
theorem capture_counterexample :
    (capture ⟨1, "wv", "huntington", "cam1", false⟩
        ⟨true, true, true, true, false, "20250101-000000.jpg"⟩).retval
      = some ⟨1, "photos/wv/huntington/cam1/20250101-000000.jpg", true⟩ ∧
    (capture ⟨1, "wv", "huntington", "cam1", false⟩
        ⟨true, true, true, true, false, "20250101-000000.jpg"⟩).photo_created
      = false ∧
    (capture ⟨1, "wv", "huntington", "cam1", true⟩
        ⟨true, true, true, false, true, "f.jpg"⟩).retval = none ∧
    (capture ⟨1, "wv", "huntington", "cam1", true⟩
        ⟨true, true, true, false, true, "f.jpg"⟩).last_connection_status
      = none :=
  ⟨rfl, rfl, rfl, rfl⟩

/-- C8 amended. `capture(camera)` returns a success outcome iff the frame
read, the encode, the upload under the
`photos/{state}/{city}/{camera}/{timestamp-filename}` key and the Redis
bookkeeping all succeed — a `CapturedImage` row-creation failure is caught,
logged and still yields success. On a frame/encode/upload failure it sets
the camera's `last_connection_status` to `false` and returns a failed
outcome instead of raising; but on a Redis error it returns `None` without
mutating `last_connection_status`, so the status is not mutated on every
failed attempt. -/
theorem capture_amended (cam : CamRec) (env : CaptureEnv) :
    ((∃ o, (capture cam env).retval = some o ∧ o.success = true) ↔
      (env.frame_ok ∧ env.encode_ok ∧ env.upload_ok ∧ env.redis_ok)) ∧
    (env.frame_ok ∧ env.encode_ok ∧ env.upload_ok ∧ env.redis_ok →
      (capture cam env).retval
        = some ⟨cam.id, s3KeyFor cam env.filename, true⟩ ∧
      (capture cam env).last_connection_status = some true ∧
      (capture cam env).photo_created = env.photo_create_ok) ∧
    (¬(env.frame_ok ∧ env.encode_ok ∧ env.upload_ok) →
      (capture cam env).retval = some ⟨cam.id, "", false⟩ ∧
      (capture cam env).last_connection_status = some false) ∧
    (env.frame_ok ∧ env.encode_ok ∧ env.upload_ok ∧ ¬env.redis_ok →
      (capture cam env).retval = none ∧
      (capture cam env).last_connection_status = none) := by
  obtain ⟨f, e, u, r, p, fn⟩ := env
  cases f <;> cases e <;> cases u <;> cases r <;> simp [capture]

theorem capture_amended_witness :
    ((true : Bool) ∧ (true : Bool) ∧ (true : Bool) ∧ (true : Bool)) ∧
    (capture ⟨2, "wv", "charleston", "cam2", false⟩
        ⟨true, true, true, true, true, "t.jpg"⟩).retval
      = some ⟨2, s3KeyFor ⟨2, "wv", "charleston", "cam2", false⟩ "t.jpg", true⟩ ∧
    (capture ⟨2, "wv", "charleston", "cam2", false⟩
        ⟨true, true, true, true, true, "t.jpg"⟩).last_connection_status
      = some true :=
  ⟨⟨by decide, by decide, by decide, by decide⟩,
    ((capture_amended ⟨2, "wv", "charleston", "cam2", false⟩
        ⟨true, true, true, true, true, "t.jpg"⟩).2.1
      ⟨by decide, by decide, by decide, by decide⟩).1,
    ((capture_amended ⟨2, "wv", "charleston", "cam2", false⟩
        ⟨true, true, true, true, true, "t.jpg"⟩).2.1
      ⟨by decide, by decide, by decide, by decide⟩).2.1⟩

/-- C2 counterexample. A concrete `detect_single_photo` run whose body
raises on each execution: after the 2 configured retries the original
exception escapes the unit-of-work boundary (the worker's final outcome is
`raised`, not a returned dictionary) — refuting "no exception crosses the
unit-of-work boundary" and "it is marked with terminal status
`failed_after_retries`". -/
theorem detect_retry_counterexample :
    run_celery (fun r => (detect_single_photo 7
        ⟨.error (.appError "db down"), .ok false, .ok false⟩ r).1) 5 0
      = (.raised (.appError "db down"), 2) := by
  rfl

/-- C2 amended. In `detect_single_photo`, an exception raised inside the
body triggers `self.retry(exc=e, countdown=60)` from the `except` handler;
the raised `Retry` escapes the body, so the worker re-executes it up to the
configured `max_retries=2`, after which the original exception is re-raised
past the unit boundary after exactly 2 retries (first conjunct). No
execution writes to the database on that path, so the photo's `detected_at`
is left null for a later scheduling pass (second conjunct). The task never
returns a `failed_after_retries` outcome — its returned statuses are only
`success` and `error` (third conjunct) — and the failures the inner calls
report as values (a `None` detection result, a `False` update) produce an
immediate `error` dictionary with no retry and no database write (last two
conjuncts). -/
theorem detect_retry_amended (pid : Nat) (msg : String)
    (u s : Except PyExc Bool) (res : DetectResult) :
    (∀ fuel, 2 ≤ fuel →
      run_celery (fun r =>
          (detect_single_photo pid ⟨.error (.appError msg), u, s⟩ r).1) fuel 0
        = (.raised (.appError msg), 2)) ∧
    (∀ r, (detect_single_photo pid ⟨.error (.appError msg), u, s⟩ r).2
      = ⟨false, false⟩) ∧
    (∀ f r d, (detect_single_photo pid f r).1 = .ret d →
      d.status = "success" ∨ d.status = "error") ∧
    (∀ v w r, detect_single_photo pid ⟨.ok none, v, w⟩ r
      = (.ret ⟨pid, "error"⟩, ⟨false, false⟩)) ∧
    (∀ w r, detect_single_photo pid ⟨.ok (some res), .ok false, w⟩ r
      = (.ret ⟨pid, "error"⟩, ⟨false, false⟩)) := by
  have hb : ∀ r, (detect_single_photo pid ⟨.error (.appError msg), u, s⟩ r).1
      = .raised (if r < 2 then .retryExc else .appError msg) := by
    intro r
    by_cases hr : r < 2 <;> simp [detect_single_photo, celery_retry, hr]
  refine ⟨?_, ?_, ?_, ?_, ?_⟩
  · intro fuel hf
    obtain ⟨f, rfl⟩ : ∃ f, fuel = f + 2 := ⟨fuel - 2, by omega⟩
    cases f with
    | zero => simp [run_celery, hb]
    | succ g => simp [run_celery, hb]
  · intro r
    simp [detect_single_photo]
  · intro f r d hd
    obtain ⟨fd, fu, fs⟩ := f
    cases fd with
    | error e => simp [detect_single_photo] at hd
    | ok o =>
      cases o with
      | none => simp [detect_single_photo] at hd; simp [← hd]
      | some rr =>
        cases fu with
        | error e => simp [detect_single_photo] at hd
        | ok b =>
          cases b with
          | false => simp [detect_single_photo] at hd; simp [← hd]
          | true =>
            by_cases he : rr.detected_objects.isEmpty
            · simp [detect_single_photo, he] at hd; simp [← hd]
            · cases fs with
              | error e => simp [detect_single_photo, he] at hd
              | ok w => simp [detect_single_photo, he] at hd; simp [← hd]
  · intro v w r
    simp [detect_single_photo]
  · intro w r
    simp [detect_single_photo]

theorem detect_retry_amended_witness :
    2 ≤ 3 ∧
    run_celery (fun r => (detect_single_photo 7
        ⟨.error (.appError "boom"), .ok false, .ok false⟩ r).1) 3 0
      = (.raised (.appError "boom"), 2) :=
  ⟨by decide,
    (detect_retry_amended 7 "boom" (.ok false) (.ok false) resNoDets).1 3
      (by decide)⟩

/-- C4 counterexample. Run the detection unit on a freshly captured photo
with a detection result that kept zero objects (the real `detect_objects`
output on an empty raw list): the committed state has `detected_at`
stamped, all eight counters zero, and no object rows — so
"`detected_at` is null iff all counters are zero and no object rows exist"
fails in the right-to-left direction. -/
theorem detect_invariant_counterexample :
    (detect_db_step photoCreate (some resNoDets) 5 true true).detected_at
      = some 5 ∧
    (detect_db_step photoCreate (some resNoDets) 5 true true).counts
      = zeroCounts ∧
    (detect_db_step photoCreate (some resNoDets) 5 true true).objects = [] ∧
    ¬ DetectInvariantIff (detect_db_step photoCreate (some resNoDets) 5 true true) := by
  refine ⟨rfl, rfl, rfl, ?_⟩
  intro hinv
  exact Option.noConfusion (hinv.mpr ⟨rfl, rfl⟩)

/-- C4 amended. The direction of the invariant the code does maintain: a
photo whose `detected_at` is null has all eight counters zero and no
`DetectedObject` rows. `capture` creates photos in that state, and every
database transition of the detection unit preserves it (a photo is only
given counters or object rows together with a `detected_at` stamp). The
converse direction fails for photos whose detection found zero objects. -/
theorem detect_invariant_amended :
    DetectInvariantImp photoCreate ∧
    ∀ s res t updOk saveOk, DetectInvariantImp s →
      DetectInvariantImp (detect_db_step s res t updOk saveOk) := by
  constructor
  · intro _
    exact ⟨rfl, rfl⟩
  · intro s res t updOk saveOk hs
    cases res with
    | none => simpa [detect_db_step] using hs
    | some r =>
      cases updOk with
      | false =>
        intro hnull
        simp only [detect_db_step] at hnull ⊢
        simp at hnull ⊢
        exact hs hnull
      | true =>
        intro hnull
        exfalso
        by_cases he : r.detected_objects.isEmpty <;>
          by_cases hsv : saveOk <;>
          simp [detect_db_step, update_photo_detection, save_detected_objects,
            he, hsv] at hnull

theorem detect_invariant_amended_witness :
    DetectInvariantImp photoCreate ∧
    DetectInvariantImp (detect_db_step photoCreate (some resNoDets) 5 true true) :=
  ⟨detect_invariant_amended.1,
    detect_invariant_amended.2 photoCreate (some resNoDets) 5 true true
      detect_invariant_amended.1⟩

/-- C5 counterexample. A concrete detection run (one kept car) where the
counter update commits and the object-row insert fails: the resulting state
has the counters updated and `detected_at` stamped but no object rows — a
state the claimed single update+insert transaction semantics
(`detect_db_step_one_tx`, both committed or neither) can never produce. -/
theorem detect_tx_counterexample :
    (detect_db_step photoCreate (some resOneCar) 1 true false).detected_at
      = some 1 ∧
    (detect_db_step photoCreate (some resOneCar) 1 true false).counts.car_above
      = 1 ∧
    (detect_db_step photoCreate (some resOneCar) 1 true false).objects = [] ∧
    detect_db_step photoCreate (some resOneCar) 1 true false
      ≠ detect_db_step_one_tx photoCreate (some resOneCar) 1 true ∧
    detect_db_step photoCreate (some resOneCar) 1 true false
      ≠ detect_db_step_one_tx photoCreate (some resOneCar) 1 false :=
  ⟨rfl, rfl, rfl, by decide, by decide⟩

/-- C5 amended. The counter update (`update_photo_detection`) and the
object-row insert (`save_detected_objects`) run as separate transactions:
when the update commits and the insert fails, the counters,
`has_detected_objects` and `detected_at` stay committed while no object row
exists (first three conjuncts); only the batch insert by itself is
all-or-nothing (fourth conjunct); and the task still reports `success` for
the photo whatever the insert outcome (last conjunct). -/
theorem detect_tx_amended (s : PhotoDB) (r : DetectResult) (t : Nat)
    (h : r.detected_objects ≠ []) :
    (detect_db_step s (some r) t true false).detected_at = some t ∧
    (detect_db_step s (some r) t true false).counts = r.counts ∧
    (detect_db_step s (some r) t true false).objects = s.objects ∧
    detect_db_step s (some r) t true true
      = save_detected_objects
          (update_photo_detection s r.counts r.has_detected_objects t)
          (r.detected_objects.map (fun o => ⟨o.name, o.conf⟩)) ∧
    (∀ pid retries w,
      (detect_single_photo pid ⟨.ok (some r), .ok true, .ok w⟩ retries).1
        = .ret ⟨pid, "success"⟩) := by
  have he : r.detected_objects.isEmpty = false := by
    simpa [List.isEmpty_iff] using h
  refine ⟨?_, ?_, ?_, ?_, ?_⟩ <;>
    simp [detect_db_step, update_photo_detection, save_detected_objects, he,
      detect_single_photo]

theorem detect_tx_amended_witness :
    resOneCar.detected_objects ≠ [] ∧
    (detect_db_step photoCreate (some resOneCar) 1 true false).objects = [] :=
  ⟨by decide, by
    have h := (detect_tx_amended photoCreate resOneCar 1 (by decide)).2.2.1
    simpa [photoCreate] using h⟩

/-- C6. For every raw detection processed by the classification loop of
`detect_objects`: a raw class with no entry in `CLASS_CONFIG` is dropped
without error (first conjunct); a confidence strictly below the rule's
`min_confidence` is dropped (second); otherwise the detection is mapped to
the rule's canonical class `map_to`, the counter of that class's `above`
bucket is incremented when the confidence is at least the system confidence
and of the `below` bucket otherwise, and the emitted object records the
canonical class and the bucket (third); a confidence exactly equal to
`min_confidence` is kept, and one at least — including exactly equal to —
the system confidence lands in the `above` bucket, i.e. both comparisons
have `>=` semantics (last three conjuncts). -/
theorem detect_objects_classification (sysConf : Conf) (pid : Nat)
    (up : Nat → Bool) (i : Nat) (d : RawDet) (c : Counts) :
    (CLASS_CONFIG.lookup d.cls = none →
      processDet sysConf pid up i d c = (c, none)) ∧
    (∀ rule, CLASS_CONFIG.lookup d.cls = some rule →
      (d.conf < rule.min_confidence →
        processDet sysConf pid up i d c = (c, none)) ∧
      (rule.min_confidence ≤ d.conf →
        (processDet sysConf pid up i d c).1
          = bumpCounts c rule.map_to (decide (d.conf ≥ sysConf)) ∧
        countOf (processDet sysConf pid up i d c).1 rule.map_to
            (decide (d.conf ≥ sysConf))
          = countOf c rule.map_to (decide (d.conf ≥ sysConf)) + 1 ∧
        ∃ o, (processDet sysConf pid up i d c).2 = some o ∧
          o.name = rule.map_to ∧ o.original_name = d.cls ∧ o.conf = d.conf ∧
          o.is_above_system_confidence = decide (d.conf ≥ sysConf)) ∧
      (d.conf = rule.min_confidence →
        (processDet sysConf pid up i d c).2 ≠ none) ∧
      (sysConf ≤ d.conf → ∀ o, (processDet sysConf pid up i d c).2 = some o →
        o.is_above_system_confidence = true) ∧
      (d.conf < sysConf → ∀ o, (processDet sysConf pid up i d c).2 = some o →
        o.is_above_system_confidence = false)) := by
  constructor
  · intro hnone
    unfold processDet
    rw [hnone]
  · intro rule hrule
    have hshape := class_config_lookup_shape hrule
    refine ⟨?_, ?_, ?_, ?_, ?_⟩
    · intro hlt
      unfold processDet
      simp only [hrule, if_pos hlt]
    · intro hle
      have hnlt : ¬ d.conf < rule.min_confidence := not_lt.mpr hle
      have hfst : (processDet sysConf pid up i d c).1
          = bumpCounts c rule.map_to (decide (d.conf ≥ sysConf)) := by
        unfold processDet
        simp only [hrule, if_neg hnlt]
      refine ⟨hfst, ?_, ?_⟩
      · rw [hfst]
        exact countOf_bumpCounts c rule.map_to _ hshape.2.2
      · unfold processDet
        simp only [hrule, if_neg hnlt]
        exact ⟨_, rfl, rfl, rfl, rfl, rfl⟩
    · intro heq
      have hnlt : ¬ d.conf < rule.min_confidence := not_lt.mpr (le_of_eq heq.symm)
      unfold processDet
      simp only [hrule, if_neg hnlt]
      simp
    · intro hge o ho
      unfold processDet at ho
      by_cases hlt : d.conf < rule.min_confidence
      · simp only [hrule, if_pos hlt] at ho; simp at ho
      · simp only [hrule, if_neg hlt] at ho
        simp at ho
        rw [← ho]
        exact decide_eq_true hge
    · intro hblw o ho
      unfold processDet at ho
      by_cases hlt : d.conf < rule.min_confidence
      · simp only [hrule, if_pos hlt] at ho; simp at ho
      · simp only [hrule, if_neg hlt] at ho
        simp at ho
        rw [← ho]
        simpa using not_le.mpr hblw

theorem detect_objects_classification_witness :
    CLASS_CONFIG.lookup "dog" = some ⟨"deer", MIN_CONFIDENCE, true⟩ ∧
    MIN_CONFIDENCE ≤ mkRat 8 10 ∧
    (processDet (mkRat 1 2) 42 (fun _ => true) 3
        ⟨"dog", mkRat 8 10⟩ zeroCounts).1
      = bumpCounts zeroCounts "deer" (decide ((mkRat 8 10 : ℚ) ≥ mkRat 1 2)) := by
  refine ⟨by decide, by decide, ?_⟩
  exact (((detect_objects_classification (mkRat 1 2) 42 (fun _ => true) 3
      ⟨"dog", mkRat 8 10⟩ zeroCounts).2 ⟨"deer", MIN_CONFIDENCE, true⟩
      (by decide)).2.1 (by decide)).1

/-- C9. The emitted-object list of `detect_objects` is exactly the raw
detection list processed at 1-based positions (`emitList` starting at 1),
where the position advances for every raw detection, dropped ones included
(first conjunct). A kept detection whose rule has the crop-persist flag set
gets the deterministic crop key `objects/{canonical}/{image_id}_{n}.jpg`
from its raw position `n` when the store succeeds, and a store failure or
exception degrades to a null crop key on the emitted object rather than
failing the detection (remaining conjuncts). -/
theorem crop_keys_correct (sysConf : Conf) (pid : Nat) (up : Nat → Bool)
    (dets : List RawDet) :
    (detect_objects sysConf pid up dets).detected_objects
      = emitList sysConf pid up 1 dets ∧
    (∀ i d rule, CLASS_CONFIG.lookup d.cls = some rule →
      ¬ d.conf < rule.min_confidence → rule.save_image = true →
      ∃ o, emitOne sysConf pid up i d = some o ∧
        o.s3_key = (if up i then some (cropKey rule.map_to pid i) else none)) ∧
    (∀ i d o, up i = false → emitOne sysConf pid up i d = some o →
      o.s3_key = none) ∧
    (∀ mapped n, cropKey mapped pid n
      = "objects/" ++ mapped ++ "/" ++ toString pid ++ "_" ++ toString n
        ++ ".jpg") := by
  refine ⟨detectLoop_snd sysConf pid up dets 1 zeroCounts, ?_, ?_,
    fun mapped n => rfl⟩
  · intro i d rule hrule hnlt hsave
    unfold emitOne processDet
    simp only [hrule, if_neg hnlt]
    exact ⟨_, rfl, by simp [hsave]⟩
  · intro i d o hup ho
    unfold emitOne processDet at ho
    cases hl : CLASS_CONFIG.lookup d.cls with
    | none => rw [hl] at ho; simp at ho
    | some rule =>
      by_cases hlt : d.conf < rule.min_confidence
      · simp only [hl, if_pos hlt] at ho; simp at ho
      · simp only [hl, if_neg hlt] at ho
        simp at ho
        rw [← ho]
        simp [hup]

theorem crop_keys_correct_witness :
    CLASS_CONFIG.lookup "bus" = some ⟨"truck", MIN_CONFIDENCE, true⟩ ∧
    ¬ (mkRat 95 100 : ℚ) < MIN_CONFIDENCE ∧
    ∃ o, emitOne YOLO_SYSTEM_CONFIDENCE 42 (fun _ => true) 3
        ⟨"bus", mkRat 95 100⟩ = some o ∧
      o.s3_key = some (cropKey "truck" 42 3) := by
  refine ⟨by decide, by decide, ?_⟩
  obtain ⟨o, ho, hk⟩ := (crop_keys_correct YOLO_SYSTEM_CONFIDENCE 42
      (fun _ => true) []).2.1 3 ⟨"bus", mkRat 95 100⟩
      ⟨"truck", MIN_CONFIDENCE, true⟩ (by decide) (by decide) (by decide)
  exact ⟨o, ho, by simpa using hk⟩

/-- C10. Under the shipped configuration every rule of `CLASS_CONFIG` has
`min_confidence = MIN_CONFIDENCE = 0.80`, which is at least the default
system confidence `YOLO_SYSTEM_CONFIDENCE = 0.5` (first conjunct); hence
for every image processed under the defaults every kept detection is
bucketed above the system confidence: the four `below` counters of the
result are zero and every emitted object has
`is_above_system_confidence = true`. -/
theorem default_config_all_above (pid : Nat) (up : Nat → Bool)
    (dets : List RawDet) :
    (∀ n r, CLASS_CONFIG.lookup n = some r →
      r.min_confidence = MIN_CONFIDENCE ∧
      YOLO_SYSTEM_CONFIDENCE ≤ r.min_confidence) ∧
    (detect_objects YOLO_SYSTEM_CONFIDENCE pid up dets).counts.car_below = 0 ∧
    (detect_objects YOLO_SYSTEM_CONFIDENCE pid up dets).counts.truck_below = 0 ∧
    (detect_objects YOLO_SYSTEM_CONFIDENCE pid up dets).counts.person_below = 0 ∧
    (detect_objects YOLO_SYSTEM_CONFIDENCE pid up dets).counts.deer_below = 0 ∧
    ∀ o ∈ (detect_objects YOLO_SYSTEM_CONFIDENCE pid up dets).detected_objects,
      o.is_above_system_confidence = true := by
  have hsys : YOLO_SYSTEM_CONFIDENCE ≤ MIN_CONFIDENCE := by decide
  have hmain := detectLoop_below_preserved YOLO_SYSTEM_CONFIDENCE pid up hsys
    dets 1 zeroCounts (by decide)
  exact ⟨fun n r h => ⟨(class_config_lookup_shape h).1,
      (class_config_lookup_shape h).1 ▸ hsys⟩,
    hmain.1.1, hmain.1.2.1, hmain.1.2.2.1, hmain.1.2.2.2, hmain.2⟩

/-- C7. On every invocation `schedule_photo_detection` discovers at most
100 photos (first conjunct) and fans out exactly one detection task per
discovered photo (second conjunct); every scheduled pair comes from a photo
with `detected_at` null (and a non-null file, whose value is the scheduled
`s3_key`) (third conjunct); when no photo has `detected_at` null it performs
zero fan-out (fourth conjunct); and given 150 eligible photos it fans out
exactly 100 — the prefix of the creation-time-ascending ordering, so every
scheduled photo is at least as old as every eligible photo left behind
(last conjunct). -/
theorem schedule_detection_correct (photos : List PhotoRec) :
    (schedule_photo_detection photos).scheduled.length ≤ 100 ∧
    (schedule_photo_detection photos).photos_scheduled
      = (schedule_photo_detection photos).scheduled.length ∧
    (∀ pr ∈ (schedule_photo_detection photos).scheduled,
      ∃ p, p ∈ photos ∧ p.id = pr.1 ∧ p.file = some pr.2 ∧
        p.detected_at = none) ∧
    ((∀ p ∈ photos, p.detected_at ≠ none) →
      schedule_photo_detection photos = ⟨0, []⟩) ∧
    ((photos.filter undetectedFilter).length = 150 →
      (schedule_photo_detection photos).scheduled
        = (((photos.filter undetectedFilter).insertionSort createdLE).take 100).map
            (fun p => (p.id, p.file.getD "")) ∧
      (schedule_photo_detection photos).scheduled.length = 100 ∧
      ∀ a ∈ ((photos.filter undetectedFilter).insertionSort createdLE).take 100,
        ∀ b ∈ ((photos.filter undetectedFilter).insertionSort createdLE).drop 100,
          a.created_at ≤ b.created_at) := by
  have hsch : (schedule_photo_detection photos).scheduled
      = get_undetected_photos photos 100 := by
    unfold schedule_photo_detection
    by_cases h : (get_undetected_photos photos 100).isEmpty
    · simp [h, List.isEmpty_iff.mp h]
    · simp [h]
  have hcnt : (schedule_photo_detection photos).photos_scheduled
      = (schedule_photo_detection photos).scheduled.length := by
    unfold schedule_photo_detection
    by_cases h : (get_undetected_photos photos 100).isEmpty <;> simp [h]
  refine ⟨?_, hcnt, ?_, ?_, ?_⟩
  · rw [hsch]
    unfold get_undetected_photos
    rw [List.length_map, List.length_take]
    exact min_le_left 100 _
  · intro pr hpr
    rw [hsch] at hpr
    unfold get_undetected_photos at hpr
    obtain ⟨p, hp, hpr2⟩ := List.mem_map.mp hpr
    have hpsort : p ∈ (photos.filter undetectedFilter).insertionSort createdLE :=
      List.mem_of_mem_take hp
    have hpf : p ∈ photos.filter undetectedFilter :=
      (List.perm_insertionSort createdLE _).subset hpsort
    have hpm := List.mem_filter.mp hpf
    have hflt := hpm.2
    unfold undetectedFilter at hflt
    rw [Bool.and_eq_true] at hflt
    refine ⟨p, hpm.1, ?_, ?_, Option.isNone_iff_eq_none.mp hflt.1⟩
    · rw [← hpr2]
    · obtain ⟨v, hv⟩ := Option.isSome_iff_exists.mp hflt.2
      rw [← hpr2]
      simp [hv]
  · intro hall
    have hfe : photos.filter undetectedFilter = [] := by
      rw [List.filter_eq_nil_iff]
      intro p hp
      unfold undetectedFilter
      rw [Bool.and_eq_true, Option.isNone_iff_eq_none]
      intro hcontra
      exact hall p hp hcontra.1
    unfold schedule_photo_detection get_undetected_photos
    rw [hfe]
    rfl
  · intro h150
    have hlen : ((photos.filter undetectedFilter).insertionSort createdLE).length
        = 150 := by
      rw [(List.perm_insertionSort createdLE _).length_eq, h150]
    refine ⟨?_, ?_, ?_⟩
    · rw [hsch]
      rfl
    · rw [hsch]
      unfold get_undetected_photos
      rw [List.length_map, List.length_take, hlen]
      rfl
    · have hsorted : List.Sorted createdLE
          ((photos.filter undetectedFilter).insertionSort createdLE) :=
        List.sorted_insertionSort createdLE _
      have hpw : List.Pairwise createdLE
          (((photos.filter undetectedFilter).insertionSort createdLE).take 100
            ++ ((photos.filter undetectedFilter).insertionSort createdLE).drop 100) := by
        rw [List.take_append_drop]
        exact hsorted
      exact fun a ha b hb => (List.pairwise_append.mp hpw).2.2 a ha b hb

theorem schedule_detection_correct_witness :
    (∀ p ∈ ([⟨1, some "a", some 2, 5⟩] : List PhotoRec), p.detected_at ≠ none) ∧
    schedule_photo_detection [⟨1, some "a", some 2, 5⟩] = ⟨0, []⟩ :=
  ⟨by decide,
    (schedule_detection_correct [⟨1, some "a", some 2, 5⟩]).2.2.2.1 (by decide)⟩

theorem default_config_all_above_witness :
    CLASS_CONFIG.lookup "car" = some ⟨"car", MIN_CONFIDENCE, true⟩ ∧
    (detect_objects YOLO_SYSTEM_CONFIDENCE 9 (fun _ => true)
        [⟨"car", mkRat 9 10⟩]).counts.car_below = 0 :=
  ⟨by decide,
    (default_config_all_above 9 (fun _ => true) [⟨"car", mkRat 9 10⟩]).2.1⟩

end WVC
